import Mathlib

/-!
Verification of the MUI X `DateRangePicker` picker-state and range-validation
core against its natural-language specification.

The component file `DateRangePicker.tsx` is embedded directly (the value
manager, prop defaulting and prop routing).  The internal hooks it imports
(`useDateRangeValidation`, `usePickerState`, `parseRangeInputValue`,
`DateRangePickerInput`) are not part of the provided sources, so those parts
are modelled from the specification; each such definition says so in its doc
comment.

Dates are opaque to the core: it only touches them through the adapter
(`utils`).  We model the underlying date type as `Int` (a linearly ordered
timestamp), which is all the adapter interface exposes, and a `DateValue` as
either absent (`null`), present-but-unparsable (`invalid`), or a valid date.
-/

/-- A nullable date value as held by the picker: `null` (absent), `invalid`
(non-null input that failed to parse, echoed back to the user), or a valid
date carried as an opaque timestamp. -/
inductive DateValue where
  | null : DateValue
  | invalid : DateValue
  | valid : Int → DateValue
deriving DecidableEq

/-- Result of the adapter's parse of a present (non-null) raw input: the
spec requires that parse failure yields a value marked invalid, never
`null`, so `null` is structurally excluded here. -/
inductive ParsedDate where
  | invalid : ParsedDate
  | valid : Int → ParsedDate
deriving DecidableEq

/-- Inject an adapter parse result into `DateValue`; by construction the
image never contains `DateValue.null`. -/
def ParsedDate.toDateValue : ParsedDate → DateValue
  | ParsedDate.invalid => DateValue.invalid
  | ParsedDate.valid d => DateValue.valid d

/-- The date-adapter capability (`utils` in the source): equality and order
comparisons on nullable date values, parsing of a raw external
representation (modelled as `Int`), and formatting.  The core never does
date arithmetic itself, so theorems quantify over an arbitrary adapter where
the code does. -/
structure MuiPickersAdapter where
  isEqual : DateValue → DateValue → Bool
  isBefore : DateValue → DateValue → Bool
  isAfter : DateValue → DateValue → Bool
  dateParse : Int → ParsedDate
  format : DateValue → String

/-- A concrete well-behaved adapter used to evaluate the development on
closed inputs: equality is structural (in particular `null` is only equal to
`null`), order compares the timestamps of two valid dates and is false when
either side is `null` or `invalid`, parsing echoes the timestamp. -/
def defaultAdapter : MuiPickersAdapter where
  isEqual a b := a == b
  isBefore a b :=
    match a, b with
    | DateValue.valid x, DateValue.valid y => decide (x < y)
    | _, _ => false
  isAfter a b :=
    match a, b with
    | DateValue.valid x, DateValue.valid y => decide (y < x)
    | _, _ => false
  dateParse r := ParsedDate.valid r
  format v :=
    match v with
    | DateValue.null => ""
    | DateValue.invalid => "Invalid Date"
    | DateValue.valid d => toString d

/-- A range value: ordered pair of independently nullable date values. -/
abbrev RangeValue := DateValue × DateValue

/-- A raw external range representation: two independently nullable raw
slots (the `RangeInput` of the source). -/
abbrev RangeInput := Option Int × Option Int

/-- Modelled from the spec: one side of `parseRangeInputValue`
(`internal/utils/date-utils`, not in the provided sources).  §4.2: each side
is parsed independently through the adapter; a `null` slot stays `null`; a
present slot is handed to the adapter's parse, whose failure is marked
invalid, not null (§4.1). -/
def parseRangeSide (utils : MuiPickersAdapter) : Option Int → DateValue
  | Option.none => DateValue.null
  | Option.some raw => (utils.dateParse raw).toDateValue

/-- Modelled from the spec: `parseRangeInputValue` accepts a two-element
external representation and independently parses each side (§4.2). -/
def parseRangeInputValue (utils : MuiPickersAdapter) (value : RangeInput) : RangeValue :=
  (parseRangeSide utils value.1, parseRangeSide utils value.2)

/-- The value-manager interface the picker state hook consumes
(`PickerStateValueManager` of the source). -/
structure PickerStateValueManager where
  emptyValue : RangeValue
  parseInput : MuiPickersAdapter → RangeInput → RangeValue
  areValuesEqual : MuiPickersAdapter → RangeValue → RangeValue → Bool

/-- The range picker's value manager, from `DateRangePicker.tsx` lines
78-82: `emptyValue` is the pair `[null, null]`, `parseInput` is
`parseRangeInputValue`, and `areValuesEqual` is the conjunction of the
adapter's `isEqual` on the two slots. -/
def rangePickerValueManager : PickerStateValueManager where
  emptyValue := (DateValue.null, DateValue.null)
  parseInput := parseRangeInputValue
  areValuesEqual := fun utils a b => utils.isEqual a.1 b.1 && utils.isEqual a.2 b.2

/-- The per-side validation error taxonomy of the spec (§3, §7).  `none`
means "valid". -/
inductive DateValidationError where
  | invalidDate : DateValidationError
  | disableFuture : DateValidationError
  | disablePast : DateValidationError
  | minDate : DateValidationError
  | maxDate : DateValidationError
  | shouldDisableDate : DateValidationError
  | shouldDisableYear : DateValidationError
  | none : DateValidationError
deriving DecidableEq

/-- The declarative rule set the validation engine evaluates (§4.3, §6
configuration surface).  Absent `minDate`/`maxDate` bounds impose no
constraint; the two predicates are injected pure capabilities. -/
structure ValidationRules where
  disableFuture : Bool
  disablePast : Bool
  minDate : Option Int
  maxDate : Option Int
  shouldDisableDate : Int → Bool
  shouldDisableYear : Int → Bool

/-- The empty rule set: nothing disabled, no bounds, both predicates
constantly false. -/
def noRules : ValidationRules where
  disableFuture := false
  disablePast := false
  minDate := Option.none
  maxDate := Option.none
  shouldDisableDate := fun _ => false
  shouldDisableYear := fun _ => false

/-- Is `d` strictly before the configured lower bound (no bound, no
violation)? -/
def beforeMinDate (minD : Option Int) (d : Int) : Bool :=
  match minD with
  | Option.none => false
  | Option.some m => decide (d < m)

/-- Is `d` strictly after the configured upper bound (no bound, no
violation)? -/
def afterMaxDate (maxD : Option Int) (d : Int) : Bool :=
  match maxD with
  | Option.none => false
  | Option.some m => decide (m < d)

/-- Modelled from the spec: the per-side validation engine of
`useDateRangeValidation` (`internal/hooks/validation`, not in the provided
sources).  §4.3: rules are checked in the fixed order `invalidDate`,
`disableFuture`, `disablePast`, `minDate`, `maxDate`, `shouldDisableDate`,
`shouldDisableYear`; the first match wins, otherwise `none`.  An absent
(`null`) value matches no rule; "now" is an injected parameter. -/
def validateDate (rules : ValidationRules) (now : Int) (v : DateValue) : DateValidationError :=
  match v with
  | DateValue.null => DateValidationError.none
  | DateValue.invalid => DateValidationError.invalidDate
  | DateValue.valid d =>
    if rules.disableFuture && decide (now < d) then DateValidationError.disableFuture
    else if rules.disablePast && decide (d < now) then DateValidationError.disablePast
    else if beforeMinDate rules.minDate d then DateValidationError.minDate
    else if afterMaxDate rules.maxDate d then DateValidationError.maxDate
    else if rules.shouldDisableDate d then DateValidationError.shouldDisableDate
    else if rules.shouldDisableYear d then DateValidationError.shouldDisableYear
    else DateValidationError.none

/-- Whether a single validation rule, considered in isolation, matches the
value: the independent reading of each numbered condition of §4.3, used to
state the first-match-wins property. -/
def ruleApplies (rules : ValidationRules) (now : Int) (v : DateValue) :
    DateValidationError → Bool
  | DateValidationError.invalidDate =>
    match v with
    | DateValue.invalid => true
    | _ => false
  | DateValidationError.disableFuture =>
    match v with
    | DateValue.valid d => rules.disableFuture && decide (now < d)
    | _ => false
  | DateValidationError.disablePast =>
    match v with
    | DateValue.valid d => rules.disablePast && decide (d < now)
    | _ => false
  | DateValidationError.minDate =>
    match v with
    | DateValue.valid d => beforeMinDate rules.minDate d
    | _ => false
  | DateValidationError.maxDate =>
    match v with
    | DateValue.valid d => afterMaxDate rules.maxDate d
    | _ => false
  | DateValidationError.shouldDisableDate =>
    match v with
    | DateValue.valid d => rules.shouldDisableDate d
    | _ => false
  | DateValidationError.shouldDisableYear =>
    match v with
    | DateValue.valid d => rules.shouldDisableYear d
    | _ => false
  | DateValidationError.none => false

/-- The fixed rule-evaluation order of §4.3. -/
def ruleOrder : List DateValidationError :=
  [DateValidationError.invalidDate, DateValidationError.disableFuture,
   DateValidationError.disablePast, DateValidationError.minDate,
   DateValidationError.maxDate, DateValidationError.shouldDisableDate,
   DateValidationError.shouldDisableYear]

/-- The composite validation result for a range (§3 `ValidationError`,
§4.3): the pair of per-side errors, plus the `invalidRange` flag reported
"without overwriting either side's individual error". -/
structure DateRangeValidationError where
  startError : DateValidationError
  endError : DateValidationError
  invalidRange : Bool
deriving DecidableEq

/-- Is the range inverted under the adapter comparison, i.e. `start > end`
(§4.3)?  With `defaultAdapter` this is false whenever either side is `null`
or `invalid`. -/
def rangeInverted (utils : MuiPickersAdapter) (v : RangeValue) : Bool :=
  utils.isAfter v.1 v.2

/-- Modelled from the spec: the range validation of
`useDateRangeValidation` (not in the provided sources).  §4.3: each side is
evaluated independently; "if both sides are `none` but `start > end`
(adapter comparison), the pair is additionally flagged `invalidRange`" as a
composite result that keeps both per-side errors. -/
def validateDateRange (utils : MuiPickersAdapter) (rules : ValidationRules)
    (now : Int) (v : RangeValue) : DateRangeValidationError :=
  let se := validateDate rules now v.1
  let ee := validateDate rules now v.2
  { startError := se
    endError := ee
    invalidRange :=
      decide (se = DateValidationError.none) &&
      decide (ee = DateValidationError.none) && rangeInverted utils v }

/-- Which slot of the range the next edit affects
(`currentlySelectingRangeEnd` in the source, `'start' | 'end'`). -/
inductive SelectionPosition where
  | start : SelectionPosition
  | endSide : SelectionPosition
deriving DecidableEq

/-- Configuration of the overlay policy consumed by the controller (§4.5):
"close on select is honored unless `disableCloseOnSelect` is set". -/
structure PickerConfig where
  disableCloseOnSelect : Bool

/-- The default (uncontrolled desktop) configuration. -/
def defaultConfig : PickerConfig where
  disableCloseOnSelect := false

/-- Modelled from the spec: the picker state snapshot owned by
`usePickerState` (not in the provided sources); §3 `PickerStateSnapshot`
plus the ephemeral keystroke buffer (`MaskState`, reduced to its text
buffer, `Option.none` when no edit is in progress). -/
structure ControllerState where
  value : RangeValue
  selPos : SelectionPosition
  isOpen : Bool
  maskState : Option String
deriving DecidableEq

/-- The callbacks a single transition emits, in order: the `onChange`
commits and the `onError` validation reports (§4.4 guarantee). -/
structure EmittedEvents where
  onChangeCalls : List RangeValue
  onErrorCalls : List DateRangeValidationError
deriving DecidableEq

/-- A transition that emits nothing. -/
def noEvents : EmittedEvents where
  onChangeCalls := []
  onErrorCalls := []

/-- Is a composite range validation result fully valid: both sides `none`
and no `invalidRange` flag (§4.4: a close is requested "only if the pair is
fully valid")? -/
def fullyValid (err : DateRangeValidationError) : Bool :=
  decide (err.startError = DateValidationError.none) &&
  decide (err.endError = DateValidationError.none) && !err.invalidRange

/-- The discrete external events §4.4 lists for the range controller
(keystroke routing is out of scope of the claims settled here; calendar
selection and keyboard commits coincide at this level). -/
inductive PickerEvent where
  | focusInput : SelectionPosition → PickerEvent
  | calendarSelect : Int → PickerEvent
  | externalValueChange : RangeValue → PickerEvent
  | dismiss : PickerEvent

/-- The state the controller is created in: value empty, selection position
initialized to `start` (`React.useState('start')`, `DateRangePicker.tsx`
lines 126-128), overlay closed, no keystroke buffer. -/
def initialControllerState : ControllerState where
  value := rangePickerValueManager.emptyValue
  selPos := SelectionPosition.start
  isOpen := false
  maskState := Option.none

/-- Modelled from the spec: the range-mode transition function of the
Picker State Controller (`usePickerState` plus the range view glue, not in
the provided sources), following §4.4 event by event:
`focusInput` opens to the focused slot without touching the value;
`calendarSelect` on the start side commits the start, flips the selection
position to `end` and keeps the overlay open, on the end side commits the
end, validates the pair (including `invalidRange`) and requests a close
only if the pair is fully valid (honored unless `disableCloseOnSelect`);
`externalValueChange` always wins: it discards the `MaskState` and resets
the selection position to `start`; `dismiss` closes and discards any
incomplete buffer without emitting anything.  Every commit replaces the
`MaskState` (§3) and is followed by a validation report through `onError`. -/
def step (utils : MuiPickersAdapter) (cfg : PickerConfig) (rules : ValidationRules)
    (now : Int) (e : PickerEvent) (st : ControllerState) :
    ControllerState × EmittedEvents :=
  match e with
  | PickerEvent.focusInput p =>
    ({ st with selPos := p, isOpen := true }, noEvents)
  | PickerEvent.calendarSelect d =>
    match st.selPos with
    | SelectionPosition.start =>
      let value := (DateValue.valid d, st.value.2)
      let err := validateDateRange utils rules now value
      ({ value := value
         selPos := SelectionPosition.endSide
         isOpen := st.isOpen
         maskState := Option.none },
       { onChangeCalls := [value], onErrorCalls := [err] })
    | SelectionPosition.endSide =>
      let value := (st.value.1, DateValue.valid d)
      let err := validateDateRange utils rules now value
      let close := fullyValid err && !cfg.disableCloseOnSelect
      ({ value := value
         selPos := st.selPos
         isOpen := if close then false else st.isOpen
         maskState := Option.none },
       { onChangeCalls := [value], onErrorCalls := [err] })
  | PickerEvent.externalValueChange v =>
    ({ value := v
       selPos := SelectionPosition.start
       isOpen := st.isOpen
       maskState := Option.none }, noEvents)
  | PickerEvent.dismiss =>
    ({ st with isOpen := false, maskState := Option.none }, noEvents)

/-- Modelled from the spec: the text shown in the two inputs (§6 "text
input surface", two slots in range mode).  While a keystroke buffer exists
it is displayed in the slot being edited; otherwise each slot shows the
adapter-formatted committed value (§5: dismiss "restores display text to
the last committed value's formatted representation"). -/
def displayedText (utils : MuiPickersAdapter) (st : ControllerState) : String × String :=
  match st.maskState with
  | Option.some buf =>
    (if st.selPos = SelectionPosition.start then buf else utils.format st.value.1,
     if st.selPos = SelectionPosition.endSide then buf else utils.format st.value.2)
  | Option.none => (utils.format st.value.1, utils.format st.value.2)

/-- The expected selection position after one event, as a table: set by an
explicit refocus, flipped to `end` by a start-side calendar commit, reset
to `start` by an external value change, untouched by everything else. -/
def nextSelPos (e : PickerEvent) (cur : SelectionPosition) : SelectionPosition :=
  match e with
  | PickerEvent.focusInput p => p
  | PickerEvent.calendarSelect _ =>
    match cur with
    | SelectionPosition.start => SelectionPosition.endSide
    | SelectionPosition.endSide => cur
  | PickerEvent.externalValueChange _ => SelectionPosition.start
  | PickerEvent.dismiss => cur

/-- January 5, 2023, as an opaque adapter timestamp. -/
def jan5of2023 : Int := 20230105

/-- January 3, 2023, as an opaque adapter timestamp. -/
def jan3of2023 : Int := 20230103

/-- The props of `DateRangePicker` relevant to prop defaulting and routing
(`DateRangePicker.tsx` lines 109-120): the optional `minDate`, `maxDate`
and `mask` props as received, before any default is substituted. -/
structure DateRangePickerProps where
  minDate : Option Int
  maxDate : Option Int
  mask : Option String
deriving DecidableEq

/-- The adapter-supplied default bounds (`useDefaultDates()` in the
source). -/
structure DefaultDates where
  minDate : Int
  maxDate : Int
deriving DecidableEq

/-- `DateRangePicker.tsx` line 124: `const minDate = minDateProp ??
defaultDates.minDate`. -/
def resolvedMinDate (props : DateRangePickerProps) (defaultDates : DefaultDates) : Int :=
  props.minDate.getD defaultDates.minDate

/-- `DateRangePicker.tsx` line 125: `const maxDate = maxDateProp ??
defaultDates.maxDate`. -/
def resolvedMaxDate (props : DateRangePickerProps) (defaultDates : DefaultDates) : Int :=
  props.maxDate.getD defaultDates.maxDate

/-- The bounds carried by `restProps` (`DateRangePicker.tsx` lines
136-140), the bundle spread into the responsive wrapper (line 164) and into
`DateRangePickerView` (line 179): the resolved, default-substituted
bounds. -/
structure RestPropsBounds where
  minDate : Int
  maxDate : Int
deriving DecidableEq

/-- Build `restProps` from the incoming props and the adapter defaults
(`DateRangePicker.tsx` lines 136-140). -/
def restPropsBounds (props : DateRangePickerProps) (defaultDates : DefaultDates) :
    RestPropsBounds where
  minDate := resolvedMinDate props defaultDates
  maxDate := resolvedMaxDate props defaultDates

/-- The `minDate` bound the views receive through `restProps`. -/
def viewMinDate (props : DateRangePickerProps) (defaultDates : DefaultDates) : Int :=
  (restPropsBounds props defaultDates).minDate

/-- The `maxDate` bound the views receive through `restProps`. -/
def viewMaxDate (props : DateRangePickerProps) (defaultDates : DefaultDates) : Int :=
  (restPropsBounds props defaultDates).maxDate

/-- `DateRangePicker.tsx` line 147: `useDateRangeValidation(props)` — the
validation hook is handed the original props object, not `restProps`, so
the argument it receives is `props` unchanged. -/
def validationHookArg (props : DateRangePickerProps) : DateRangePickerProps :=
  props

/-- The `minDate` bound as seen by the validation hook call at line 147:
the raw, possibly absent prop. -/
def validationMinDate (props : DateRangePickerProps) : Option Int :=
  (validationHookArg props).minDate

/-- The `maxDate` bound as seen by the validation hook call at line 147. -/
def validationMaxDate (props : DateRangePickerProps) : Option Int :=
  (validationHookArg props).maxDate

/-- `DateRangePicker.tsx` line 113: `mask = '__/__/____'` — the mask prop
with its destructuring default. -/
def resolvedMask (props : DateRangePickerProps) : String :=
  props.mask.getD "__/__/____"

/-- The slice of the `DateInputProps` bundle (`DateRangePicker.tsx` lines
149-160) relevant here: the single mask handed to the range input
component. -/
structure DateInputPropsModel where
  mask : String
deriving DecidableEq

/-- Build the `DateInputProps` bundle (line 157: `mask,`). -/
def mkDateInputProps (props : DateRangePickerProps) : DateInputPropsModel where
  mask := resolvedMask props

/-- Modelled from the spec: `DateRangePickerInput` (not in the provided
sources) renders one masked text input per range slot (§6: "two for range
mode"), each driven by the single configured mask option (§6 configuration
surface).  The start input's mask template. -/
def startInputMask (p : DateInputPropsModel) : String :=
  p.mask

/-- Modelled from the spec: the end input's mask template, from the same
single `DateInputProps.mask` (see `startInputMask`). -/
def endInputMask (p : DateInputPropsModel) : String :=
  p.mask

/-- Props with every optional prop omitted. -/
def propsAllDefault : DateRangePickerProps where
  minDate := Option.none
  maxDate := Option.none
  mask := Option.none

/-- A concrete rule set whose only constraint is `minDate = 10`. -/
def rulesMinTen : ValidationRules where
  disableFuture := false
  disablePast := false
  minDate := Option.some 10
  maxDate := Option.none
  shouldDisableDate := fun _ => false
  shouldDisableYear := fun _ => false

/-- The adapter defaults used on concrete inputs below. -/
def exampleDefaultDates : DefaultDates where
  minDate := 100
  maxDate := 9999

/-- Scenario of §8.8, step 1: focus the start input from the freshly
created picker. -/
def scenarioState1 : ControllerState × EmittedEvents :=
  step defaultAdapter defaultConfig noRules 0
    (PickerEvent.focusInput SelectionPosition.start) initialControllerState

/-- Scenario of §8.8, step 2: select the valid start date Jan 5 2023 on the
calendar. -/
def scenarioState2 : ControllerState × EmittedEvents :=
  step defaultAdapter defaultConfig noRules 0
    (PickerEvent.calendarSelect jan5of2023) scenarioState1.1

/-- Scenario of §8.8, step 3: select the valid end date Jan 3 2023, earlier
than the committed start. -/
def scenarioState3 : ControllerState × EmittedEvents :=
  step defaultAdapter defaultConfig noRules 0
    (PickerEvent.calendarSelect jan3of2023) scenarioState2.1

/-- A controller state in the middle of a range edit: start committed,
selection position on the end side, overlay open. -/
def stateEditingEnd : ControllerState where
  value := (DateValue.valid jan5of2023, DateValue.null)
  selPos := SelectionPosition.endSide
  isOpen := true
  maskState := Option.none

/-- Claim C1: for every pair of range values `a` and `b`, the value
manager's `areValuesEqual utils a b` returns true if and only if the
adapter's `isEqual` holds on both slots, and it is null-safe: it is a total
function that yields the componentwise result for every combination of
slots, `null` slots included. -/
theorem claim1_areValuesEqual_componentwise (utils : MuiPickersAdapter) (a b : RangeValue) :
    rangePickerValueManager.areValuesEqual utils a b = true ↔
      (utils.isEqual a.1 b.1 = true ∧ utils.isEqual a.2 b.2 = true) := by
  simp [rangePickerValueManager]

/-- Claim C2, counterexample: with a `minDate = 10` rule, the range
`(valid 5, valid 3)` is inverted under the adapter comparison and both
sides are valid dates, yet the composite result carries the per-side
`minDate` flag and does NOT report `invalidRange` — the flag is gated on
both sides being `none`, contradicting the claim that every inverted pair
of valid dates reports `invalidRange` alongside intact min/max flags. -/
theorem claim2_invalidRange_counterexample :
    (validateDateRange defaultAdapter rulesMinTen 0
        (DateValue.valid 5, DateValue.valid 3)).invalidRange = false ∧
    (validateDateRange defaultAdapter rulesMinTen 0
        (DateValue.valid 5, DateValue.valid 3)).startError = DateValidationError.minDate ∧
    rangeInverted defaultAdapter (DateValue.valid 5, DateValue.valid 3) = true := by
  decide

/-- Claim C2, amended: the composite range result always keeps both
per-side errors exactly as per-side evaluation produced them (nothing is
overwritten), and `invalidRange` is flagged precisely when both per-side
results are `none` and `start > end` under the adapter comparison; when a
side carries a `minDate`/`maxDate` error, `invalidRange` is not
additionally flagged. -/
theorem claim2_invalidRange_composite_amended (utils : MuiPickersAdapter)
    (rules : ValidationRules) (now : Int) (v : RangeValue) :
    (validateDateRange utils rules now v).startError = validateDate rules now v.1 ∧
    (validateDateRange utils rules now v).endError = validateDate rules now v.2 ∧
    ((validateDateRange utils rules now v).invalidRange = true ↔
      (validateDate rules now v.1 = DateValidationError.none ∧
       validateDate rules now v.2 = DateValidationError.none ∧
       rangeInverted utils v = true)) := by
  refine ⟨rfl, rfl, ?_⟩
  simp [validateDateRange, and_assoc]

/-- Claim C3: in range mode, after the valid start Jan 5 2023 is committed
and then the valid end Jan 3 2023 (earlier than the start) is committed,
`onChange` fires exactly once for the end-commit transition with the
inverted pair `[Jan 5, Jan 3]` preserved exactly as selected, `onError`
reports `invalidRange` for that same transition, and the overlay does not
auto-close because closing on an end commit requires the pair to be fully
valid. -/
theorem claim3_inverted_range_commit_scenario :
    scenarioState2.2.onChangeCalls = [(DateValue.valid jan5of2023, DateValue.null)] ∧
    scenarioState2.1.selPos = SelectionPosition.endSide ∧
    scenarioState3.2.onChangeCalls =
      [(DateValue.valid jan5of2023, DateValue.valid jan3of2023)] ∧
    scenarioState3.2.onErrorCalls =
      [{ startError := DateValidationError.none
         endError := DateValidationError.none
         invalidRange := true }] ∧
    scenarioState3.1.isOpen = true := by
  decide

/-- Claim C4, counterexample: an invalid-marked (present but unparsable)
value fails validation even under the empty rule set — `validate(invalid,
noRules, now)` is `invalidDate`, not `none`, because the `invalidDate` rule
is inherent rather than configured, so the universally quantified
"validate(v, noRules, now) = none" is false at `v = invalid`. -/
theorem claim4_noRules_counterexample :
    validateDate noRules 0 DateValue.invalid = DateValidationError.invalidDate ∧
    validateDate noRules 0 DateValue.invalid ≠ DateValidationError.none := by
  decide

/-- Claim C4, amended: per side, `validateDate` returns the first rule
matching in the fixed order `invalidDate`, `disableFuture`, `disablePast`,
`minDate`, `maxDate`, `shouldDisableDate`, `shouldDisableYear` and `none`
when no rule matches; under the empty rule set every value that is not
marked invalid (every `null` or valid date) validates to `none`. -/
theorem claim4_rule_order_first_match_amended (rules : ValidationRules)
    (now : Int) (v : DateValue) :
    validateDate rules now v =
      (ruleOrder.filter (ruleApplies rules now v)).headD DateValidationError.none ∧
    (∀ d : Int, validateDate noRules now (DateValue.valid d) = DateValidationError.none) ∧
    validateDate noRules now DateValue.null = DateValidationError.none := by
  refine ⟨?_, ?_, rfl⟩
  · cases v with
    | null => rfl
    | invalid => rfl
    | valid d =>
      cases h1 : rules.disableFuture && decide (now < d) <;>
        cases h2 : rules.disablePast && decide (d < now) <;>
          cases h3 : beforeMinDate rules.minDate d <;>
            cases h4 : afterMaxDate rules.maxDate d <;>
              cases h5 : rules.shouldDisableDate d <;>
                cases h6 : rules.shouldDisableYear d <;>
                  simp [validateDate, ruleOrder, ruleApplies, List.filter,
                    h1, h2, h3, h4, h5, h6]
  · intro d
    simp [validateDate, noRules, beforeMinDate, afterMaxDate]

/-- Claim C5: an `externalValueChange` (controlled update from outside)
always wins over any in-progress keystroke buffer — incomplete buffers such
as "01/1_/____" included, since the state is universally quantified: the
controller discards the `MaskState`, resets the selection position to
`start`, and both displayed texts afterwards equal the adapter-formatted
new value, never a merge with the stale buffer. -/
theorem claim5_externalValueChange_discards_buffer (utils : MuiPickersAdapter)
    (cfg : PickerConfig) (rules : ValidationRules) (now : Int)
    (st : ControllerState) (v : RangeValue) :
    (step utils cfg rules now (PickerEvent.externalValueChange v) st).1.maskState =
      Option.none ∧
    (step utils cfg rules now (PickerEvent.externalValueChange v) st).1.selPos =
      SelectionPosition.start ∧
    displayedText utils (step utils cfg rules now (PickerEvent.externalValueChange v) st).1 =
      (utils.format v.1, utils.format v.2) :=
  ⟨rfl, rfl, rfl⟩

/-- Claim C6: `parseRangeInputValue` parses the two slots of the external
representation independently through the adapter; for every raw date `d`,
the partially-null input `[d, null]` produces `[parsed d, null]` ("only
start chosen") and is never coerced to the fully-empty value
`[null, null]`, because the adapter's parse of a present slot yields a
valid or invalid-marked date, never `null`. -/
theorem claim6_parseRangeInputValue_partial_pair (utils : MuiPickersAdapter)
    (a b : Option Int) (d : Int) :
    parseRangeInputValue utils (a, b) = (parseRangeSide utils a, parseRangeSide utils b) ∧
    parseRangeInputValue utils (Option.some d, Option.none) =
      ((utils.dateParse d).toDateValue, DateValue.null) ∧
    parseRangeInputValue utils (Option.some d, Option.none) ≠
      rangePickerValueManager.emptyValue := by
  refine ⟨rfl, rfl, ?_⟩
  cases hp : utils.dateParse d <;>
    simp [parseRangeInputValue, parseRangeSide, hp, ParsedDate.toDateValue,
      rangePickerValueManager, Prod.ext_iff]

/-- Claim C7, counterexample: an `externalValueChange` — which is neither
picker creation, nor a valid start-date commit, nor an explicit refocus —
changes the selection position: from a state editing the end side it resets
it to `start`, so "no other event changes it" is false. -/
theorem claim7_selPos_counterexample :
    stateEditingEnd.selPos = SelectionPosition.endSide ∧
    (step defaultAdapter defaultConfig noRules 0
        (PickerEvent.externalValueChange rangePickerValueManager.emptyValue)
        stateEditingEnd).1.selPos = SelectionPosition.start := by
  decide

/-- Claim C7, amended: the selection position is initialized to `start` on
creation (`useState('start')`, source lines 126-128), a start-side calendar
commit flips it to `end`, an explicit refocus sets it to the focused slot,
and an `externalValueChange` resets it to `start`; no other modelled event
changes it — the position after any event is exactly the `nextSelPos`
table. -/
theorem claim7_selPos_lifecycle_amended (utils : MuiPickersAdapter) (cfg : PickerConfig)
    (rules : ValidationRules) (now : Int) (e : PickerEvent) (st : ControllerState) :
    initialControllerState.selPos = SelectionPosition.start ∧
    (step utils cfg rules now e st).1.selPos = nextSelPos e st.selPos := by
  refine ⟨rfl, ?_⟩
  cases e with
  | focusInput p => rfl
  | calendarSelect d => cases h : st.selPos <;> simp [step, nextSelPos, h]
  | externalValueChange v => rfl
  | dismiss => rfl

/-- Claim C8, counterexample: with `minDate` omitted and adapter default
`100`, the views receive the substituted bound `100` through `restProps`,
but the validation hook at line 147 receives the original props, whose
`minDate` is still absent — not the substituted default — so the claim
that defaults are substituted "before passing the bounds to validation" is
false. -/
theorem claim8_validation_bounds_counterexample :
    viewMinDate propsAllDefault exampleDefaultDates = 100 ∧
    validationMinDate propsAllDefault = Option.none ∧
    validationMinDate propsAllDefault ≠
      Option.some (resolvedMinDate propsAllDefault exampleDefaultDates) := by
  decide

/-- Claim C8, amended: when `minDate` (resp. `maxDate`) is not provided,
the picker substitutes the adapter-supplied default before passing the
bounds to the wrapper and the views, and a provided prop always takes
precedence over the default; the validation hook, however, is handed the
original props object with the raw, possibly absent bounds. -/
theorem claim8_default_bounds_amended (props : DateRangePickerProps)
    (defaultDates : DefaultDates) (m x : Int) :
    viewMinDate props defaultDates = props.minDate.getD defaultDates.minDate ∧
    viewMaxDate props defaultDates = props.maxDate.getD defaultDates.maxDate ∧
    viewMinDate { props with minDate := Option.some m } defaultDates = m ∧
    viewMaxDate { props with maxDate := Option.some x } defaultDates = x ∧
    validationHookArg props = props ∧
    validationMinDate props = props.minDate ∧
    validationMaxDate props = props.maxDate :=
  ⟨rfl, rfl, rfl, rfl, rfl, rfl, rfl⟩

/-- Claim C9: the empty range value is the pair `[null, null]`, never a
bare null (it is a pair by construction); `areValuesEqual utils v
emptyValue` holds exactly when both slots of `v` are adapter-equal to
`null`, and with the structural-equality adapter this predicate holds
exactly of the empty value itself — `[null, null]` is the identity element
emptiness is tested against. -/
theorem claim9_emptyValue_identity (utils : MuiPickersAdapter) (v : RangeValue) :
    rangePickerValueManager.emptyValue = (DateValue.null, DateValue.null) ∧
    (rangePickerValueManager.areValuesEqual utils v rangePickerValueManager.emptyValue = true ↔
      (utils.isEqual v.1 DateValue.null = true ∧ utils.isEqual v.2 DateValue.null = true)) ∧
    (v = rangePickerValueManager.emptyValue ↔
      rangePickerValueManager.areValuesEqual defaultAdapter v
        rangePickerValueManager.emptyValue = true) := by
  refine ⟨rfl, ?_, ?_⟩
  · simp [rangePickerValueManager]
  · cases v with
    | mk x y => simp [rangePickerValueManager, defaultAdapter, Prod.ext_iff, and_comm]

/-- Claim C10: when the `mask` prop is omitted, both the start and the end
input of the range picker use the default template `__/__/____` (the
destructuring default of line 113, carried once in `DateInputProps`); a
supplied `mask` prop replaces the default for both inputs. -/
theorem claim10_mask_default_both_inputs (props : DateRangePickerProps) :
    (props.mask = Option.none →
      startInputMask (mkDateInputProps props) = "__/__/____" ∧
      endInputMask (mkDateInputProps props) = "__/__/____") ∧
    (∀ m : String, props.mask = Option.some m →
      startInputMask (mkDateInputProps props) = m ∧
      endInputMask (mkDateInputProps props) = m) := by
  constructor
  · intro h
    constructor <;>
      simp [startInputMask, endInputMask, mkDateInputProps, resolvedMask, h]
  · intro m h
    constructor <;>
      simp [startInputMask, endInputMask, mkDateInputProps, resolvedMask, h]

/-- Witness for claim C10: at the concrete props with every optional prop
omitted, both inputs show the default mask template. -/
theorem claim10_mask_default_both_inputs_witness :
    startInputMask (mkDateInputProps propsAllDefault) = "__/__/____" ∧
    endInputMask (mkDateInputProps propsAllDefault) = "__/__/____" :=
  (claim10_mask_default_both_inputs propsAllDefault).1 rfl
